import Mathlib

/-!
Shallow embedding of `src/Telegram/SourceFiles/statistics/point_details_widget.cpp`
(namespace `Statistic`, class `PointDetailsWidget`).

Modelling conventions:
- Chart x-timestamps are modelled as natural numbers of milliseconds since the
  epoch (the program stores them as `float64` milliseconds; the chart data of
  this widget are real calendar dates, hence non-negative).
- `float64` alpha values are modelled as rationals; `std::ceil` becomes
  `Int.ceil` on `ℚ`.
- Text rendering (`Ui::Text::String`, `QLocale().toString`) is external; a
  rendered text is modelled by the data that determines it: the header by the
  chosen format together with the seconds value handed to the formatter, a
  value line by the raw number handed to `"%L1"`.
- The style constants (`st::statisticsDetailsPopupPadding`,
  `st::statisticsDetailsPopupMargins`, `st::statisticsDetailsPopupMidLineSpace`,
  the two font heights) are external theme inputs; they are carried in a
  `Style` record and quantified over.
- `_textRect.y()` equals `padding.top + margins.top`: the size subscription sets
  `_innerRect = fullRect - padding` and `_textRect = _innerRect - margins`,
  with `fullRect` anchored at the origin.
-/

namespace Statistic

/-- One data series of the external chart data: id, display name, the y value
per x index, and a colour (opaque external value). -/
structure DataLine where
  id : Int
  name : String
  y : List Int
  color : Nat
deriving DecidableEq, Repr

/-- The external `Data::StatisticalChart`: x timestamps (milliseconds since
epoch) and the data series. -/
structure StatisticalChart where
  x : List Nat
  lines : List DataLine
deriving DecidableEq, Repr

/-- The header text produced by `FormatTimestamp`: which of the two format
patterns was used, and the seconds-since-epoch value handed to the locale
formatter (which determines the rendered string). -/
structure HeaderText where
  isLong : Bool
  secs : Nat
deriving DecidableEq, Repr

/-- Modelled from the spec: the internal transient `Line` record declared in
`point_details_widget.h` (not part of the given sources) — "id, display name
(rendered text), display value (rendered text), color, fade alpha in [0,1]";
freshly built lines start fully visible (alpha 1). -/
structure Line where
  id : Int
  name : String
  value : Int
  valueColor : Nat
  alpha : ℚ
deriving DecidableEq, Repr

/-- External style/theme constants used by the layout code. -/
structure Style where
  paddingTop : Nat
  marginTop : Nat
  marginBottom : Nat
  textFontHeight : Nat
  headerFontHeight : Nat
  midLineSpace : Nat
deriving DecidableEq, Repr

/-- The mutable state of `PointDetailsWidget`. -/
structure PointDetailsWidget where
  zoomEnabled : Bool
  chartData : StatisticalChart
  xIndex : Int
  header : HeaderText
  lines : List Line
  transparentForMouse : Bool
  alpha : ℚ
  width : Nat
  height : Int
deriving DecidableEq, Repr

/-- Embeds `FormatTimestamp`: converts the millisecond timestamp to seconds, and uses
the long (date+time) pattern iff the UTC hour or minute is non-zero, else the
short (date-only) pattern.  Seconds of the time-of-day are not inspected. -/
def FormatTimestamp (timestampMs : Nat) : HeaderText :=
  let secs := timestampMs / 1000
  let tod := secs % 86400
  let hour := tod / 3600
  let minute := tod % 3600 / 60
  { isLong := hour != 0 || minute != 0, secs := secs }

/-- Embeds `PointDetailsWidget::setXIndex`: stores the index, returns early when it is
negative, otherwise rebuilds the header, the line list and the
mouse-transparency attribute from the chart data at that index. -/
def setXIndex (w : PointDetailsWidget) (xIndex : Int) : PointDetailsWidget :=
  let w' := { w with xIndex := xIndex }
  if xIndex < 0 then
    w'
  else
    let i := xIndex.toNat
    let header := FormatTimestamp (w.chartData.x.getD i 0)
    let newLines := w.chartData.lines.map fun dataLine =>
      { id := dataLine.id
        name := dataLine.name
        value := dataLine.y.getD i 0
        valueColor := dataLine.color
        alpha := 1 : Line }
    let hasPositiveValues :=
      w.chartData.lines.any fun dataLine => decide (dataLine.y.getD i 0 > 0)
    let clickable := w.zoomEnabled && hasPositiveValues
    { w' with
      header := header
      lines := newLines
      transparentForMouse := !clickable }

/-- The alpha used by `lineYAt` for slot `i`: the recorded line's alpha when
`i` is within the current line list, and `1.` otherwise. -/
def lineAlphaAt (lines : List Line) (i : Nat) : ℚ :=
  match lines.get? i with
  | some l => l.alpha
  | none => 1

/-- The accumulation loop of `lineYAt`: sum over `i < index` of
`alpha_i * (text font height + mid-line space)`. -/
def linesHeight (lines : List Line) (st : Style) (index : Nat) : ℚ :=
  (List.range index).foldl
    (fun acc i =>
      acc + lineAlphaAt lines i * ((st.textFontHeight : ℚ) + st.midLineSpace))
    0

/-- Executable form of `std::ceil` on rationals; `ceilQ_eq_ceil` below shows
it is the mathematical ceiling. -/
def ceilQ (q : ℚ) : Int :=
  -(-q).floor

/-- Embeds `PointDetailsWidget::lineYAt`:
`_textRect.y() + headerFontHeight + margins.bottom() + ceil(linesHeight)`,
with `_textRect.y() = padding.top + margins.top`. -/
def lineYAt (w : PointDetailsWidget) (st : Style) (index : Nat) : Int :=
  (st.paddingTop : Int) + st.marginTop + st.headerFontHeight + st.marginBottom
    + ceilQ (linesHeight w.lines st index)

/-- Embeds `PointDetailsWidget::resizeHeight`: keeps the width and sets the height to
`lineYAt(chartData.lines.size()) + margins.bottom()`. -/
def resizeHeight (w : PointDetailsWidget) (st : Style) : PointDetailsWidget :=
  { w with
    height := lineYAt w st w.chartData.lines.length + st.marginBottom }

/-- Embeds `PointDetailsWidget::setLineAlpha`: sets the alpha of every recorded line
whose id matches, then repaints and recomputes the height. -/
def setLineAlpha (w : PointDetailsWidget) (st : Style) (lineId : Int)
    (alpha : ℚ) : PointDetailsWidget :=
  let w' := { w with
    lines := w.lines.map fun line =>
      if line.id = lineId then { line with alpha := alpha } else line }
  resizeHeight w' st

/-- Embeds `PointDetailsWidget::setAlpha`: sets the overall popup opacity. -/
def setAlpha (w : PointDetailsWidget) (alpha : ℚ) : PointDetailsWidget :=
  { w with alpha := alpha }

/-! Concrete fixtures used by witnesses and counterexamples. -/

/-- A chart whose single timestamp is 30 seconds past midnight UTC. -/
def chartA : StatisticalChart :=
  { x := [30000], lines := [⟨1, "n", [5], 10⟩] }

/-- A chart whose single timestamp is exactly 01:00 UTC. -/
def chartB : StatisticalChart :=
  { x := [3600000], lines := [] }

/-- A chart with two series that share the id 7. -/
def chartD : StatisticalChart :=
  { x := [0], lines := [⟨7, "a", [1], 0⟩, ⟨7, "b", [2], 0⟩] }

/-- A chart with two series with distinct ids 1 and 2. -/
def chartE : StatisticalChart :=
  { x := [0], lines := [⟨1, "a", [1], 0⟩, ⟨2, "b", [2], 0⟩] }

/-- A widget over `chartA`, zoom enabled, currently at index 0. -/
def widgetA : PointDetailsWidget :=
  { zoomEnabled := true
    chartData := chartA
    xIndex := 0
    header := ⟨false, 30⟩
    lines := [⟨1, "n", 5, 10, 1⟩]
    transparentForMouse := false
    alpha := 1
    width := 100
    height := 0 }

/-- A widget over `chartB`, not yet pointed at any index. -/
def widgetB : PointDetailsWidget :=
  { zoomEnabled := false
    chartData := chartB
    xIndex := -1
    header := ⟨false, 0⟩
    lines := []
    transparentForMouse := true
    alpha := 1
    width := 100
    height := 0 }

/-- A widget over `chartA` whose recorded line is half faded. -/
def widgetC : PointDetailsWidget :=
  { zoomEnabled := true
    chartData := chartA
    xIndex := 0
    header := ⟨false, 30⟩
    lines := [⟨1, "n", 5, 10, 1/2⟩]
    transparentForMouse := false
    alpha := 1
    width := 100
    height := 0 }

/-- A widget over `chartD` with two fully visible recorded lines sharing id 7. -/
def widgetD : PointDetailsWidget :=
  { zoomEnabled := false
    chartData := chartD
    xIndex := 0
    header := ⟨false, 0⟩
    lines := [⟨7, "a", 1, 0, 1⟩, ⟨7, "b", 2, 0, 1⟩]
    transparentForMouse := true
    alpha := 1
    width := 100
    height := 0 }

/-- A widget over `chartE` with two fully visible recorded lines, ids 1 and 2. -/
def widgetE : PointDetailsWidget :=
  { zoomEnabled := false
    chartData := chartE
    xIndex := 0
    header := ⟨false, 0⟩
    lines := [⟨1, "a", 1, 0, 1⟩, ⟨2, "b", 2, 0, 1⟩]
    transparentForMouse := true
    alpha := 1
    width := 100
    height := 0 }

/-- A concrete style assignment with non-zero paddings and margins. -/
def styleA : Style :=
  { paddingTop := 6
    marginTop := 10
    marginBottom := 10
    textFontHeight := 10
    headerFontHeight := 20
    midLineSpace := 2 }

/-- The function `ceilQ` is the mathematical ceiling function on `ℚ`. -/
theorem ceilQ_eq_ceil (q : ℚ) : ceilQ q = ⌈q⌉ := by
  have h : (-q).floor = ⌊-q⌋ := ((Rat.floor_def' (-q)).trans Rat.floor_def.symm)
  rw [ceilQ, h, Int.floor_neg, neg_neg]

/-- Applying `ceilQ` to an integer gives that integer. -/
theorem ceilQ_intCast (n : ℤ) : ceilQ (n : ℚ) = n := by
  rw [ceilQ_eq_ceil]; exact Int.ceil_intCast n

/-- The `lineYAt` accumulation loop computes the finite sum of the per-slot
contributions. -/
theorem linesHeight_eq_sum (lines : List Line) (st : Style) (n : Nat) :
    linesHeight lines st n
      = ∑ i in Finset.range n,
          lineAlphaAt lines i * ((st.textFontHeight : ℚ) + st.midLineSpace) := by
  induction n with
  | zero => simp [linesHeight]
  | succ k ih =>
      rw [linesHeight, List.range_succ, List.foldl_append, Finset.sum_range_succ,
        ← linesHeight, ih]
      simp

/-- C9: after `setXIndex(i)` the getter `xIndex()` returns `i`, the last
argument passed, for every integer `i` — negative ones included, even though
for those the header, line list and mouse-transparency are not rebuilt. -/
theorem setXIndex_stores_index (w : PointDetailsWidget) (i : Int) :
    (setXIndex w i).xIndex = i
      ∧ (i < 0 →
          (setXIndex w i).header = w.header
            ∧ (setXIndex w i).lines = w.lines
            ∧ (setXIndex w i).transparentForMouse = w.transparentForMouse) := by
  by_cases hi : i < 0 <;> simp [setXIndex, hi]

/-- Witness for `setXIndex_stores_index` at `widgetA`, index `-1`. -/
theorem setXIndex_stores_index_witness :
    (setXIndex widgetA (-1)).xIndex = -1
      ∧ (setXIndex widgetA (-1)).header = widgetA.header
      ∧ (setXIndex widgetA (-1)).lines = widgetA.lines
      ∧ (setXIndex widgetA (-1)).transparentForMouse
          = widgetA.transparentForMouse := by
  have h := setXIndex_stores_index widgetA (-1)
  exact ⟨h.1, (h.2 (by decide)).1, (h.2 (by decide)).2.1, (h.2 (by decide)).2.2⟩

/-- C2 counterexample: `setXIndex(-1)` on a widget whose stored index is 0 is
not a no-op on the entire widget state — the stored x-index changes. -/
theorem setXIndex_negative_counterexample :
    setXIndex widgetA (-1) ≠ widgetA := by
  decide

/-- C2 (amended): for every negative index, `setXIndex` stores the index but
leaves every other part of the widget state — header, line list,
mouse-transparency attribute, opacity, sizes, chart data — unchanged. -/
theorem setXIndex_negative_sets_only_index (w : PointDetailsWidget) (i : Int)
    (h : i < 0) : setXIndex w i = { w with xIndex := i } := by
  simp [setXIndex, h]

/-- Witness for `setXIndex_negative_sets_only_index` at `widgetA`, `-1`. -/
theorem setXIndex_negative_sets_only_index_witness :
    setXIndex widgetA (-1) = { widgetA with xIndex := -1 } :=
  setXIndex_negative_sets_only_index widgetA (-1) (by decide)

/-- C8: `setXIndex` is idempotent — a second call with the same index (the
chart data being part of the state and unchanged) reproduces the exact same
widget state, in particular the same header text and line list. -/
theorem setXIndex_idempotent (w : PointDetailsWidget) (i : Int) :
    setXIndex (setXIndex w i) i = setXIndex w i := by
  by_cases hi : i < 0 <;> simp [setXIndex, hi]

/-- C1 counterexample: the timestamp 30000 ms (00:00:30 UTC) has a non-zero
UTC time-of-day, yet `setXIndex` renders the header with the short format,
because `FormatTimestamp` only inspects the hour and the minute. -/
theorem setXIndex_header_format_counterexample :
    0 < widgetA.chartData.x.length
      ∧ (widgetA.chartData.x.getD 0 0 / 1000) % 86400 ≠ 0
      ∧ ¬(((setXIndex widgetA 0).header.isLong = true)
            ↔ (widgetA.chartData.x.getD 0 0 / 1000) % 86400 ≠ 0) := by
  refine ⟨by decide, by decide, ?_⟩
  decide

/-- C1 (amended): for every valid index, the header uses the long format iff
the hour or the minute of the UTC time-of-day of `x[i]` (in whole seconds) is
non-zero; sub-minute components are ignored. -/
theorem setXIndex_header_long_iff (w : PointDetailsWidget) (i : Nat)
    (h : i < w.chartData.x.length) :
    ((setXIndex w i).header.isLong = true)
      ↔ ((w.chartData.x.getD i 0 / 1000) % 86400 / 3600 ≠ 0
          ∨ (w.chartData.x.getD i 0 / 1000) % 86400 % 3600 / 60 ≠ 0) := by
  have h0 : ¬((i : Int) < 0) := by omega
  simp [setXIndex, h0, FormatTimestamp, Bool.or_eq_true, bne_iff_ne]

/-- Witness for `setXIndex_header_long_iff` at `widgetB`, index 0. -/
theorem setXIndex_header_long_iff_witness :
    ((setXIndex widgetB 0).header.isLong = true)
      ↔ ((widgetB.chartData.x.getD 0 0 / 1000) % 86400 / 3600 ≠ 0
          ∨ (widgetB.chartData.x.getD 0 0 / 1000) % 86400 % 3600 / 60 ≠ 0) :=
  setXIndex_header_long_iff widgetB 0 (by decide)

/-- C3: after `setXIndex` at a valid index, a widget with zoom disabled is
always transparent for mouse events, and a widget with zoom enabled is
non-transparent iff at least one series value at that index is positive. -/
theorem setXIndex_mouse_transparency (w : PointDetailsWidget) (i : Nat)
    (h : i < w.chartData.x.length) :
    (w.zoomEnabled = false → (setXIndex w i).transparentForMouse = true)
      ∧ (w.zoomEnabled = true →
          ((setXIndex w i).transparentForMouse = false
            ↔ ∃ dataLine ∈ w.chartData.lines, 0 < dataLine.y.getD i 0)) := by
  have h0 : ¬((i : Int) < 0) := by omega
  constructor
  · intro hz
    simp [setXIndex, h0, hz]
  · intro hz
    simp [setXIndex, h0, hz, List.any_eq_true, decide_eq_true_eq]

/-- Witness for `setXIndex_mouse_transparency`: `widgetA` has zoom enabled and
a positive value at index 0, so the popup is not mouse-transparent there. -/
theorem setXIndex_mouse_transparency_witness :
    (setXIndex widgetA 0).transparentForMouse = false :=
  ((setXIndex_mouse_transparency widgetA 0 (by decide)).2 rfl).mpr
    ⟨⟨1, "n", [5], 10⟩, by decide, by decide⟩

/-- C4 counterexample: with non-zero padding and margins, `lineYAt(0)` is not
just the header font height plus the bottom margin — the content-rect top
offset is an additional additive term. -/
theorem lineYAt_zero_counterexample :
    lineYAt widgetA styleA 0
      ≠ (styleA.headerFontHeight : Int) + styleA.marginBottom := by
  have h : linesHeight widgetA.lines styleA 0 = 0 := rfl
  rw [lineYAt, h, ceilQ_eq_ceil]
  norm_num [styleA]

/-- C4 (amended): in every widget state `lineYAt(0)` equals the content-rect
top offset (padding top plus margins top) plus the header font height plus
the bottom margin, with no line contribution. -/
theorem lineYAt_zero_eq (w : PointDetailsWidget) (st : Style) :
    lineYAt w st 0
      = (st.paddingTop : Int) + st.marginTop + st.headerFontHeight
          + st.marginBottom := by
  have h : linesHeight w.lines st 0 = 0 := rfl
  rw [lineYAt, h, ceilQ_eq_ceil]
  simp

/-- C5 counterexample: at a widget with a half-faded line, `lineYAt(1)` is not
header font height + margin + ceiling of the alpha-weighted sum — the
content-rect top offset is missing from that formula. -/
theorem lineYAt_formula_counterexample :
    lineYAt widgetC styleA 1
      ≠ (styleA.headerFontHeight : Int) + styleA.marginBottom
        + ⌈∑ i in Finset.range 1,
            lineAlphaAt widgetC.lines i
              * ((styleA.textFontHeight : ℚ) + styleA.midLineSpace)⌉ := by
  have hsum : ∑ i in Finset.range 1,
      lineAlphaAt widgetC.lines i
        * ((styleA.textFontHeight : ℚ) + styleA.midLineSpace) = 6 := by
    rw [Finset.sum_range_one]
    simp [lineAlphaAt, widgetC, styleA, List.get?]
    norm_num
  rw [lineYAt, linesHeight_eq_sum, hsum, ceilQ_eq_ceil]
  norm_num [styleA, Int.ceil_ofNat]

/-- C5 (amended): for every state and every slot count `k ≥ 0`, `lineYAt(k)`
equals the content-rect top offset plus header font height plus bottom margin
plus the ceiling of the sum, over slots `i < k`, of `alpha_i * (text font
height + inter-line spacing)`, where `alpha_i` is the recorded line's alpha
when `i` is within the line list and 1 otherwise. -/
theorem lineYAt_eq_ceil_sum (w : PointDetailsWidget) (st : Style) (k : Nat) :
    lineYAt w st k
      = (st.paddingTop : Int) + st.marginTop + st.headerFontHeight
          + st.marginBottom
        + ⌈∑ i in Finset.range k,
            lineAlphaAt w.lines i
              * ((st.textFontHeight : ℚ) + st.midLineSpace)⌉ := by
  rw [lineYAt, linesHeight_eq_sum, ceilQ_eq_ceil]

/-- C7: `setLineAlpha` with an id that matches no recorded line leaves the
line list (every field of every line) unchanged. -/
theorem setLineAlpha_unknown_id (w : PointDetailsWidget) (st : Style)
    (lineId : Int) (a : ℚ) (h : ∀ l ∈ w.lines, l.id ≠ lineId) :
    (setLineAlpha w st lineId a).lines = w.lines := by
  have hmap : ∀ l ∈ w.lines,
      (if l.id = lineId then { l with alpha := a } else l) = l := by
    intro l hl
    rw [if_neg (h l hl)]
  show (w.lines.map fun l =>
      if l.id = lineId then { l with alpha := a } else l) = w.lines
  rw [List.map_congr_left hmap]
  exact List.map_id' w.lines

/-- Witness for `setLineAlpha_unknown_id`: id 99 matches no line of
`widgetA`. -/
theorem setLineAlpha_unknown_id_witness :
    (setLineAlpha widgetA styleA 99 0).lines = widgetA.lines :=
  setLineAlpha_unknown_id widgetA styleA 99 0 (by decide)

/-- C10: `setLineAlpha(id, a)` sets the alpha of every recorded line whose id
matches (duplicates included) and changes nothing else: non-matching lines
are untouched, every line keeps its id, name, value and colour, and the
header, stored x-index, line count and widget width are unchanged. -/
theorem setLineAlpha_frame (w : PointDetailsWidget) (st : Style)
    (lineId : Int) (a : ℚ) (j : Nat) (l : Line)
    (hj : w.lines.get? j = some l) :
    (setLineAlpha w st lineId a).header = w.header
      ∧ (setLineAlpha w st lineId a).xIndex = w.xIndex
      ∧ (setLineAlpha w st lineId a).width = w.width
      ∧ (setLineAlpha w st lineId a).lines.length = w.lines.length
      ∧ (setLineAlpha w st lineId a).lines.get? j
          = some (if l.id = lineId then { l with alpha := a } else l) := by
  refine ⟨rfl, rfl, rfl, by simp [setLineAlpha, resizeHeight], ?_⟩
  show (w.lines.map fun line =>
      if line.id = lineId then { line with alpha := a } else line).get? j = _
  rw [List.get?_map, hj]
  rfl

/-- Witness for `setLineAlpha_frame`: zeroing the alpha of `widgetA`'s only
line by its id 1. -/
theorem setLineAlpha_frame_witness :
    (setLineAlpha widgetA styleA 1 0).lines.get? 0
      = some ⟨1, "n", 5, 10, 0⟩ := by
  have h :=
    (setLineAlpha_frame widgetA styleA 1 0 0 ⟨1, "n", 5, 10, 1⟩ (by decide)).2.2.2.2
  simpa using h

/-- C6 counterexample: in a state where two recorded lines share id 7, zeroing
the first line's alpha through its id also zeroes its duplicate, so the
recomputed total height is NOT the layout sum with only that line's own term
removed. -/
theorem setLineAlpha_zero_duplicate_counterexample :
    (setLineAlpha widgetD styleA 7 0).height
      ≠ (styleA.paddingTop : Int) + styleA.marginTop + styleA.headerFontHeight
          + styleA.marginBottom
        + ⌈∑ i in (Finset.range widgetD.chartData.lines.length).erase 0,
            lineAlphaAt widgetD.lines i
              * ((styleA.textFontHeight : ℚ) + styleA.midLineSpace)⌉
        + styleA.marginBottom := by
  have hmap : (widgetD.lines.map fun line =>
      if line.id = 7 then { line with alpha := (0 : ℚ) } else line)
      = [⟨7, "a", 1, 0, 0⟩, ⟨7, "b", 2, 0, 0⟩] := by decide
  have hheight : (setLineAlpha widgetD styleA 7 0).height
      = (styleA.paddingTop : Int) + styleA.marginTop + styleA.headerFontHeight
          + styleA.marginBottom
        + ceilQ (linesHeight (widgetD.lines.map fun line =>
            if line.id = 7 then { line with alpha := (0 : ℚ) } else line)
            styleA 2)
        + styleA.marginBottom := rfl
  have hsum0 :
      linesHeight [(⟨7, "a", 1, 0, 0⟩ : Line), ⟨7, "b", 2, 0, 0⟩] styleA 2
        = 0 := by
    rw [linesHeight_eq_sum]
    simp [Finset.sum_range_succ, lineAlphaAt, List.get?]
  have hsum1 : ∑ i in (Finset.range widgetD.chartData.lines.length).erase 0,
      lineAlphaAt widgetD.lines i
        * ((styleA.textFontHeight : ℚ) + styleA.midLineSpace) = 12 := by
    have h2 : widgetD.chartData.lines.length = 2 := rfl
    rw [h2, Finset.sum_erase_eq_sub (Finset.mem_range.mpr (by norm_num)),
      Finset.sum_range_succ, Finset.sum_range_one]
    simp [lineAlphaAt, widgetD, styleA, List.get?]
    norm_num
  rw [hheight, hmap, hsum0, hsum1, ceilQ_eq_ceil]
  norm_num [styleA, Int.ceil_ofNat]

/-- C6 (amended): for every state whose line list matches the chart line
count, and every recorded line `L` whose id no other recorded line shares,
zeroing `L`'s alpha through `setLineAlpha` and recomputing the height yields
exactly the layout sum with `L`'s own alpha-weighted term removed: an
alpha-0 line contributes zero height. -/
theorem setLineAlpha_zero_erases_term (w : PointDetailsWidget) (st : Style)
    (idx : Nat) (L : Line) (hL : w.lines.get? idx = some L)
    (hlen : w.lines.length = w.chartData.lines.length)
    (huniq : ∀ j L', w.lines.get? j = some L' → j ≠ idx → L'.id ≠ L.id) :
    (setLineAlpha w st L.id 0).height
      = (st.paddingTop : Int) + st.marginTop + st.headerFontHeight
          + st.marginBottom
        + ⌈∑ i in (Finset.range w.chartData.lines.length).erase idx,
            lineAlphaAt w.lines i
              * ((st.textFontHeight : ℚ) + st.midLineSpace)⌉
        + st.marginBottom := by
  have hidx : idx < w.lines.length := by
    by_contra hc
    push_neg at hc
    rw [List.get?_eq_none.mpr hc] at hL
    cases hL
  have key : ∀ i, lineAlphaAt (w.lines.map fun line =>
      if line.id = L.id then { line with alpha := (0 : ℚ) } else line) i
      = if i = idx then 0 else lineAlphaAt w.lines i := by
    intro i
    by_cases hi : i = idx
    · subst hi
      rw [List.get?_eq_getElem?] at hL
      simp [lineAlphaAt, List.getElem?_map, hL]
    · rcases h2 : w.lines.get? i with _ | L'
      · rw [List.get?_eq_getElem?] at h2
        simp [lineAlphaAt, List.getElem?_map, h2, hi]
      · have hne : L'.id ≠ L.id := huniq i L' h2 hi
        rw [List.get?_eq_getElem?] at h2
        simp [lineAlphaAt, List.getElem?_map, h2, hi, hne]
  have hmem : idx ∈ Finset.range w.chartData.lines.length :=
    Finset.mem_range.mpr (hlen ▸ hidx)
  have hheight : (setLineAlpha w st L.id 0).height
      = (st.paddingTop : Int) + st.marginTop + st.headerFontHeight
          + st.marginBottom
        + ceilQ (linesHeight (w.lines.map fun line =>
            if line.id = L.id then { line with alpha := (0 : ℚ) } else line)
            st w.chartData.lines.length)
        + st.marginBottom := rfl
  have hsum : ∑ i in Finset.range w.chartData.lines.length,
      lineAlphaAt (w.lines.map fun line =>
        if line.id = L.id then { line with alpha := (0 : ℚ) } else line) i
        * ((st.textFontHeight : ℚ) + st.midLineSpace)
      = ∑ i in (Finset.range w.chartData.lines.length).erase idx,
          lineAlphaAt w.lines i * ((st.textFontHeight : ℚ) + st.midLineSpace) := by
    rw [← Finset.add_sum_erase _ _ hmem]
    rw [key idx, if_pos rfl, zero_mul, zero_add]
    refine Finset.sum_congr rfl ?_
    intro i hi
    rw [key i, if_neg (Finset.mem_erase.mp hi).1]
  rw [hheight, linesHeight_eq_sum, hsum, ceilQ_eq_ceil]

/-- Witness for `setLineAlpha_zero_erases_term`: zeroing the first line (id 1)
of `widgetE`, whose two lines carry distinct ids. -/
theorem setLineAlpha_zero_erases_term_witness :
    (setLineAlpha widgetE styleA 1 0).height = 68 := by
  have h := setLineAlpha_zero_erases_term widgetE styleA 0 ⟨1, "a", 1, 0, 1⟩
    (by decide) (by decide)
    (by
      intro j L' hj hne
      rcases j with _ | (_ | n)
      · exact absurd rfl hne
      · have hL' : L' = (⟨2, "b", 2, 0, 1⟩ : Line) := by
          rw [show widgetE.lines
              = [⟨1, "a", 1, 0, 1⟩, ⟨2, "b", 2, 0, 1⟩] from rfl] at hj
          simp [List.get?] at hj
          exact hj.symm
        subst hL'
        decide
      · rw [show widgetE.lines
            = [⟨1, "a", 1, 0, 1⟩, ⟨2, "b", 2, 0, 1⟩] from rfl] at hj
        simp [List.get?] at hj)
  rw [h]
  have hsum : ∑ i in (Finset.range widgetE.chartData.lines.length).erase 0,
      lineAlphaAt widgetE.lines i
        * ((styleA.textFontHeight : ℚ) + styleA.midLineSpace) = 12 := by
    have h2 : widgetE.chartData.lines.length = 2 := rfl
    rw [h2, Finset.sum_erase_eq_sub (Finset.mem_range.mpr (by norm_num)),
      Finset.sum_range_succ, Finset.sum_range_one]
    simp [lineAlphaAt, widgetE, styleA, List.get?]
    norm_num
  rw [hsum]
  norm_num [styleA, Int.ceil_ofNat]

end Statistic
